import Mathlib

/-
  Verification of the MBTiles download service (src/api/app.py).

  The service downloads raster map tiles for a bounding box over a zoom
  range, validates each payload, stores accepted tiles in an MBTiles
  SQLite archive (TMS row convention), and tracks per-session progress.

  The embedding below follows the Python source function by function:
  - `deg2num`            — lat/lon to tile numbers (app.py lines 38-44);
  - `calculate_total_tiles` — total tile count (app.py lines 54-66);
  - `processTile` / `runTiles` — the per-tile body of the download loop
    in `create_mbtiles_manually` (app.py lines 154-205);
  - `finalizeSession`    — the zero-success epilogue (app.py lines 210-225);
  - `get_progress`       — derived progress metrics (app.py lines 249-284);
  - `validateRequest` / `download_mbtiles` — request validation and
    session start (app.py lines 286-367).

  Machine reals (Python floats) are modelled as ℝ for the coordinate
  math and as ℚ for times and rates; Python `int()` truncation toward
  zero is modelled explicitly by `truncInt`; a Python ZeroDivisionError
  is modelled as `none`.
-/

namespace MBTiles

/-- One tile-fetch attempt either yields an HTTP response (status code and
body bytes) or raises an exception in `requests.get` (transport error). -/
inductive FetchResult where
  | response (status : Nat) (content : List Nat)
  | exn (msg : String)
deriving DecidableEq

/-- The PNG signature bytes 0x89 0x50 0x4E 0x47 checked by the source. -/
def pngSig : List Nat := [0x89, 0x50, 0x4E, 0x47]

/-- The JPEG signature bytes 0xFF 0xD8 0xFF checked by the source. -/
def jpegSig : List Nat := [0xFF, 0xD8, 0xFF]

/-- XYZ-to-TMS row flip: `tms_y = (2**zoom - 1) - y` (app.py line 170). -/
def tmsRow (zoom : Nat) (y : Int) : Int := 2 ^ zoom - 1 - y

/-- The fixed inter-request delay: `time.sleep(0.05)` (app.py line 197). -/
def tileDelaySeconds : ℚ := 5 / 100

/-- One row of the MBTiles `tiles` table. -/
structure TileRow where
  zoom_level : Nat
  tile_column : Int
  tile_row : Int
  tile_data : List Nat
deriving DecidableEq

/-- Model of `INSERT OR REPLACE` against the unique index on
`(zoom_level, tile_column, tile_row)` (app.py lines 173-176). -/
def upsertTile (rows : List TileRow) (z : Nat) (c r : Int) (data : List Nat) :
    List TileRow :=
  rows.filter (fun t => !(t.zoom_level == z && t.tile_column == c && t.tile_row == r))
    ++ [⟨z, c, r, data⟩]

/-- The mutable state threaded through the download loop: the local
counters of `create_mbtiles_manually`, the session's `downloaded_tiles`
progress field, the rows written to the `tiles` table, and the total
time spent in the inter-request delay. -/
structure PipelineState where
  successful_tiles : Nat
  failed_tiles : Nat
  tile_count : Nat
  downloaded_tiles : Nat
  rows : List TileRow
  slept_total : ℚ
deriving DecidableEq

/-- Counters at the start of a session (app.py lines 83 and 134-136). -/
def initState : PipelineState := ⟨0, 0, 0, 0, [], 0⟩

/-- The body of the innermost download loop (app.py lines 156-205) for one
tile `(zoom, x, y)` with fetch result `r`.  On a response: status-200 and
non-empty-body check, then signature check; an accepted payload is upserted
under the TMS row; `tile_count` is incremented on every path, the progress
counter is set to it, and `time.sleep(0.05)` runs at the end of the `try`
block.  On an exception the `except` handler increments the counters and
`continue`s without sleeping. -/
def processTile (zoom : Nat) (x y : Int) (r : FetchResult) (s : PipelineState) :
    PipelineState :=
  match r with
  | .response status content =>
      let s1 :=
        if status = 200 ∧ 0 < content.length then
          if pngSig.isPrefixOf content ∨ jpegSig.isPrefixOf content then
            { s with
                rows := upsertTile s.rows zoom x (tmsRow zoom y) content,
                successful_tiles := s.successful_tiles + 1 }
          else
            { s with failed_tiles := s.failed_tiles + 1 }
        else
          { s with failed_tiles := s.failed_tiles + 1 }
      { s1 with
          tile_count := s1.tile_count + 1,
          downloaded_tiles := s1.tile_count + 1,
          slept_total := s1.slept_total + tileDelaySeconds }
  | .exn _ =>
      { s with
          failed_tiles := s.failed_tiles + 1,
          tile_count := s.tile_count + 1,
          downloaded_tiles := s.tile_count + 1 }

/-- A tile attempt: the tile index `(zoom, x, y)` and its fetch result. -/
abbrev TileAttempt := (Nat × Int × Int) × FetchResult

/-- Run the download loop over a sequence of tile attempts. -/
def runTiles (l : List TileAttempt) (s : PipelineState) : PipelineState :=
  l.foldl (fun st a => processTile a.1.1 a.1.2.1 a.1.2.2 a.2 st) s

/-- Session status values used by the progress tracker. -/
inductive SessionStatus where
  | idle | downloading | completed | error
deriving DecidableEq

/-- The visible outcome of a finished session: final status, whether the
output file still exists on disk, and the value returned to the caller. -/
structure SessionOutcome where
  status : SessionStatus
  fileExists : Bool
  result : Option String
deriving DecidableEq

/-- The epilogue of `create_mbtiles_manually` (app.py lines 210-225): if no
tile was ever accepted, the session is marked `error`, the output file is
removed, and `None` is returned; otherwise the session is `completed` and
the path is returned (the file was created by `sqlite3.connect`). -/
def finalizeSession (s : PipelineState) (output_file : String) : SessionOutcome :=
  if s.successful_tiles = 0 then ⟨.error, false, none⟩
  else ⟨.completed, true, some output_file⟩

/-- Spec-side acceptance predicate (§4.3): HTTP 200, non-empty body, and a
payload beginning with the PNG or JPEG signature. -/
def acceptedPayload : FetchResult → Bool
  | .response status content =>
      status == 200 && !content.isEmpty
        && (pngSig.isPrefixOf content || jpegSig.isPrefixOf content)
  | .exn _ => false

/-- Whether an attempt ended in a transport error (a raised exception). -/
def isTransportError : FetchResult → Bool
  | .response _ _ => false
  | .exn _ => true

/-- A start-download request body.  `none` means the field was omitted from
the JSON and the `data.get(..., default)` default applies. -/
structure DownloadRequest where
  lat : ℚ
  lon : ℚ
  buffer : Option ℚ
  min_zoom : Option Int
  max_zoom : Option Int
deriving DecidableEq

/-- Visible outcome of `download_mbtiles`: an HTTP 400 with an error
message and no session, or HTTP 202 with the background thread started. -/
inductive StartResult where
  | badRequest (msg : String)
  | started
deriving DecidableEq

/-- The three validation checks of `download_mbtiles` (app.py lines
300-310), in source order: coordinates, zoom levels, buffer.  Returns the
error message of the first failing check, or `none` if all pass. -/
def validateRequest (lat lon buffer : ℚ) (min_zoom max_zoom : Int) :
    Option String :=
  if ¬(-90 ≤ lat ∧ lat ≤ 90) ∨ ¬(-180 ≤ lon ∧ lon ≤ 180) then
    some "Invalid coordinates"
  else if ¬(1 ≤ min_zoom ∧ min_zoom ≤ 21) ∨ ¬(1 ≤ max_zoom ∧ max_zoom ≤ 21)
      ∨ min_zoom > max_zoom then
    some "Invalid zoom levels"
  else if ¬(1/1000 ≤ buffer ∧ buffer ≤ 1/10) then
    some "Buffer must be between 0.001 and 0.1 degrees"
  else
    none

/-- The `/api/download_mbtiles` handler (app.py lines 286-367): apply the
`data.get` defaults (buffer 0.005, min_zoom 10, max_zoom 22), validate, and
either return 400 before any session work or start the background download
thread (which is what creates the session's progress record). -/
def download_mbtiles (req : DownloadRequest) : StartResult :=
  match validateRequest req.lat req.lon (req.buffer.getD (5/1000))
      (req.min_zoom.getD 10) (req.max_zoom.getD 22) with
  | some e => .badRequest e
  | none => .started

/-- Python `round(q)`: round half to even. -/
def pyRound (q : ℚ) : Int :=
  let f := ⌊q⌋
  if q - f < 1/2 then f
  else if 1/2 < q - f then f + 1
  else if f % 2 = 0 then f else f + 1

/-- Python `round(q, 1)`: round to one decimal digit, half to even. -/
def pyRound1 (q : ℚ) : ℚ := (pyRound (10 * q) : ℚ) / 10

/-- The derived metric fields added by `get_progress` to a snapshot. -/
structure ProgressMetrics where
  progress_percent : ℚ
  estimated_remaining_time : Int
  elapsed_time : Int
  tiles_per_second : ℚ
deriving DecidableEq

/-- The derived-metric computation of `get_progress` (app.py lines
255-284) for a session with the given counters, as a function of the
current clock `now`.  `progress_percent` is `downloaded/total*100` guarded
on `total > 0`; the rate branch is guarded on `start_time > 0 and
downloaded > 0` only, so `downloaded / elapsed_time` raises
`ZeroDivisionError` — modelled as `none` — when `elapsed_time` is zero;
`estimated_remaining_time` divides by the unrounded rate when it is
positive. -/
def get_progress (total downloaded : Nat) (start_time now : ℚ) :
    Option ProgressMetrics :=
  let percent : ℚ :=
    if 0 < total then pyRound1 ((downloaded : ℚ) / (total : ℚ) * 100) else 0
  if 0 < start_time ∧ 0 < downloaded then
    let elapsed := now - start_time
    if elapsed = 0 then none
    else
      let tps := (downloaded : ℚ) / elapsed
      let est :=
        if 0 < tps then pyRound (((total : ℚ) - (downloaded : ℚ)) / tps) else 0
      some ⟨percent, est, pyRound elapsed, pyRound1 tps⟩
  else
    some ⟨percent, 0, 0, 0⟩

/-- Python `int()` on a real value: truncation toward zero. -/
noncomputable def truncInt (x : ℝ) : Int := if x < 0 then ⌈x⌉ else ⌊x⌋

/-- The `deg2num` function (app.py lines 38-44): lat/lon degrees to tile
numbers at a zoom level, via `math.radians`, `math.tan`, `math.asinh` and
`int()`. -/
noncomputable def deg2num (lat_deg lon_deg : ℝ) (zoom : Nat) : Int × Int :=
  let lat_rad := lat_deg * (Real.pi / 180)
  let n : ℝ := 2 ^ zoom
  (truncInt ((lon_deg + 180) / 360 * n),
   truncInt ((1 - Real.arsinh (Real.tan lat_rad) / Real.pi) / 2 * n))

/-- The `calculate_total_tiles` function (app.py lines 54-66): for each zoom in
`range(min_zoom, max_zoom + 1)`, `(min_x, max_y) = deg2num(min_lat,
min_lon, zoom)`, `(max_x, min_y) = deg2num(max_lat, max_lon, zoom)`, and
the zoom contributes `(max_x - min_x + 1) * (max_y - min_y + 1)` tiles;
returns the running total and the per-zoom table. -/
noncomputable def calculate_total_tiles (min_lat max_lat min_lon max_lon : ℝ)
    (min_zoom max_zoom : Nat) : Int × List (Nat × Int) :=
  (List.range' min_zoom (max_zoom + 1 - min_zoom)).foldl
    (fun acc zoom =>
      let a := deg2num min_lat min_lon zoom
      let b := deg2num max_lat max_lon zoom
      let tiles_this_zoom := (b.1 - a.1 + 1) * (a.2 - b.2 + 1)
      (acc.1 + tiles_this_zoom, acc.2 ++ [(zoom, tiles_this_zoom)]))
    (0, [])

/-- Spec-side `toTile` (§4.1), following the spec's words: `n = 2^zoom`;
`col = floor((lon+180)/360 * n)`;
`row = floor((1 - asinh(tan(lat_rad))/π)/2 * n)`. -/
noncomputable def toTile_spec (lat lon : ℝ) (zoom : Nat) : Int × Int :=
  (⌊(lon + 180) / 360 * (2 ^ zoom : ℝ)⌋,
   ⌊(1 - Real.arsinh (Real.tan (lat * (Real.pi / 180))) / Real.pi) / 2
      * (2 ^ zoom : ℝ)⌋)

/-- Spec-side per-zoom tile count (§4.2, §8): map the box corners through
the coordinate mapper, take `rowMin` from the maximum latitude and
`rowMax` from the minimum latitude, and count
`(colMax - colMin + 1) * (rowMax - rowMin + 1)`. -/
noncomputable def specZoomCount (min_lat max_lat min_lon max_lon : ℝ)
    (zoom : Nat) : Int :=
  let colMin := (deg2num min_lat min_lon zoom).1
  let colMax := (deg2num max_lat max_lon zoom).1
  let rowMin := (deg2num max_lat max_lon zoom).2
  let rowMax := (deg2num min_lat min_lon zoom).2
  (colMax - colMin + 1) * (rowMax - rowMin + 1)

/-- The body bytes carried by a fetch result (empty for an exception). -/
def payloadContent : FetchResult → List Nat
  | .response _ content => content
  | .exn _ => []

/-! ### Helper lemmas about the download loop -/

theorem acceptedPayload_response (status : Nat) (content : List Nat) :
    acceptedPayload (.response status content) = true
      ↔ (status = 200 ∧ 0 < content.length)
        ∧ (pngSig.isPrefixOf content = true ∨ jpegSig.isPrefixOf content = true) := by
  simp [acceptedPayload, List.isEmpty_iff, List.length_pos, and_assoc]

theorem processTile_tile_count (zoom : Nat) (x y : Int) (r : FetchResult)
    (s : PipelineState) :
    (processTile zoom x y r s).tile_count = s.tile_count + 1 := by
  cases r with
  | response status content =>
      simp only [processTile]
      split_ifs <;> rfl
  | exn m => rfl

theorem processTile_downloaded (zoom : Nat) (x y : Int) (r : FetchResult)
    (s : PipelineState) :
    (processTile zoom x y r s).downloaded_tiles = s.tile_count + 1 := by
  cases r with
  | response status content =>
      simp only [processTile]
      split_ifs <;> rfl
  | exn m => rfl

theorem processTile_successful (zoom : Nat) (x y : Int) (r : FetchResult)
    (s : PipelineState) :
    (processTile zoom x y r s).successful_tiles
      = s.successful_tiles + (if acceptedPayload r then 1 else 0) := by
  cases r with
  | response status content =>
      simp only [processTile]
      by_cases h1 : status = 200 ∧ 0 < content.length
      · rw [if_pos h1]
        by_cases h2 : pngSig.isPrefixOf content ∨ jpegSig.isPrefixOf content
        · rw [if_pos h2]
          have ha : acceptedPayload (.response status content) = true :=
            (acceptedPayload_response status content).mpr ⟨h1, by simpa using h2⟩
          simp [ha]
        · rw [if_neg h2]
          have ha : ¬ acceptedPayload (.response status content) = true := by
            rw [acceptedPayload_response]
            exact fun hc => h2 (by simpa using hc.2)
          simp [ha]
      · rw [if_neg h1]
        have ha : ¬ acceptedPayload (.response status content) = true := by
          rw [acceptedPayload_response]
          exact fun hc => h1 hc.1
        simp [ha]
  | exn m => simp [processTile, acceptedPayload]

theorem processTile_slept (zoom : Nat) (x y : Int) (r : FetchResult)
    (s : PipelineState) :
    (processTile zoom x y r s).slept_total
      = s.slept_total + (if isTransportError r then 0 else tileDelaySeconds) := by
  cases r with
  | response status content =>
      simp only [processTile, isTransportError]
      split_ifs <;> simp_all
  | exn m => simp [processTile, isTransportError]

theorem runTiles_nil (s : PipelineState) : runTiles [] s = s := rfl

theorem runTiles_cons (a : TileAttempt) (l : List TileAttempt)
    (s : PipelineState) :
    runTiles (a :: l) s = runTiles l (processTile a.1.1 a.1.2.1 a.1.2.2 a.2 s) := rfl

theorem runTiles_tile_count (l : List TileAttempt) (s : PipelineState) :
    (runTiles l s).tile_count = s.tile_count + l.length := by
  induction l generalizing s with
  | nil => simp [runTiles_nil]
  | cons a t ih =>
      rw [runTiles_cons, ih, processTile_tile_count]
      simp [Nat.add_assoc, Nat.add_comm 1 t.length]

theorem runTiles_downloaded (l : List TileAttempt) (s : PipelineState)
    (h : s.downloaded_tiles = s.tile_count) :
    (runTiles l s).downloaded_tiles = s.tile_count + l.length := by
  induction l generalizing s with
  | nil => simpa [runTiles_nil] using h
  | cons a t ih =>
      rw [runTiles_cons]
      rw [ih _ (by rw [processTile_downloaded, processTile_tile_count])]
      rw [processTile_tile_count]
      simp [Nat.add_assoc, Nat.add_comm 1 t.length]

theorem runTiles_successful (l : List TileAttempt) (s : PipelineState) :
    (runTiles l s).successful_tiles
      = s.successful_tiles + l.countP (fun a => acceptedPayload a.2) := by
  induction l generalizing s with
  | nil => simp [runTiles_nil]
  | cons a t ih =>
      rw [runTiles_cons, ih, processTile_successful, List.countP_cons]
      by_cases h : acceptedPayload a.2 = true <;>
        simp [h, Nat.add_assoc, Nat.add_comm]

theorem processTile_rows (zoom : Nat) (x y : Int) (r : FetchResult)
    (s : PipelineState) :
    (processTile zoom x y r s).rows
      = if acceptedPayload r
        then upsertTile s.rows zoom x (tmsRow zoom y) (payloadContent r)
        else s.rows := by
  cases r with
  | response status content =>
      by_cases h1 : status = 200 ∧ 0 < content.length
      · by_cases h2 : pngSig.isPrefixOf content = true ∨ jpegSig.isPrefixOf content = true
        · have ha : acceptedPayload (.response status content) = true :=
            (acceptedPayload_response status content).mpr ⟨h1, h2⟩
          simp only [processTile]
          rw [if_pos h1, if_pos (by simpa using h2)]
          simp [ha, payloadContent]
        · have ha : ¬ acceptedPayload (.response status content) = true := by
            rw [acceptedPayload_response]
            exact fun hc => h2 hc.2
          simp only [processTile]
          rw [if_pos h1, if_neg (by simpa using h2)]
          simp [ha]
      · have ha : ¬ acceptedPayload (.response status content) = true := by
          rw [acceptedPayload_response]
          exact fun hc => h1 hc.1
        simp only [processTile]
        rw [if_neg h1]
        simp [ha]
  | exn m => simp [processTile, acceptedPayload]

theorem processTile_failed (zoom : Nat) (x y : Int) (r : FetchResult)
    (s : PipelineState) :
    (processTile zoom x y r s).failed_tiles
      = s.failed_tiles + (if acceptedPayload r then 0 else 1) := by
  cases r with
  | response status content =>
      by_cases h1 : status = 200 ∧ 0 < content.length
      · by_cases h2 : pngSig.isPrefixOf content = true ∨ jpegSig.isPrefixOf content = true
        · have ha : acceptedPayload (.response status content) = true :=
            (acceptedPayload_response status content).mpr ⟨h1, h2⟩
          simp only [processTile]
          rw [if_pos h1, if_pos (by simpa using h2)]
          simp [ha]
        · have ha : ¬ acceptedPayload (.response status content) = true := by
            rw [acceptedPayload_response]
            exact fun hc => h2 hc.2
          simp only [processTile]
          rw [if_pos h1, if_neg (by simpa using h2)]
          simp [ha]
      · have ha : ¬ acceptedPayload (.response status content) = true := by
          rw [acceptedPayload_response]
          exact fun hc => h1 hc.1
        simp only [processTile]
        rw [if_neg h1]
        simp [ha]
  | exn m => simp [processTile, acceptedPayload]

/-! ### Claim theorems -/

/-- C2 (counterexample): a tile attempt that fails with a transport
error/exception is counted as an attempt, but no inter-request delay is
applied after it: the `except` handler increments the counters and
`continue`s directly to the next attempt, skipping `time.sleep(0.05)`. -/
theorem delay_skipped_on_exception_cex :
    (processTile 10 0 0 (.exn "connection reset") initState).tile_count = 1
      ∧ (processTile 10 0 0 (.exn "connection reset") initState).slept_total = 0 :=
  ⟨rfl, rfl⟩

/-- C2 (amended): within one session's pipeline the fixed 50 ms (0.05 s)
inter-request delay is applied after exactly those attempts that do not
fail with a transport error/exception — i.e. after every successful or
rejected response — while attempts raising an exception proceed to the
next attempt with no delay. -/
theorem delay_applied_iff_no_exception (l : List TileAttempt)
    (s : PipelineState) :
    (runTiles l s).slept_total
      = s.slept_total
        + (l.countP (fun a => !isTransportError a.2) : ℚ) * tileDelaySeconds := by
  induction l generalizing s with
  | nil => simp [runTiles_nil]
  | cons a t ih =>
      rw [runTiles_cons, ih, processTile_slept, List.countP_cons]
      by_cases h : isTransportError a.2 = true
      · simp [h]
      · simp only [h, Bool.not_eq_true] at h ⊢
        simp [h]
        ring

/-- C4 (confirmed): if no attempt in a session is ever accepted — every
fetch is rejected or a transport error — the session finishes with status
`error`, the output archive file is deleted, and no path is returned. -/
theorem zero_success_session_error (l : List TileAttempt)
    (h : ∀ a ∈ l, acceptedPayload a.2 = false) :
    (finalizeSession (runTiles l initState) "/tmp/output.mbtiles").status
        = SessionStatus.error
      ∧ (finalizeSession (runTiles l initState) "/tmp/output.mbtiles").fileExists
          = false
      ∧ (finalizeSession (runTiles l initState) "/tmp/output.mbtiles").result
          = none := by
  have hs : (runTiles l initState).successful_tiles = 0 := by
    rw [runTiles_successful]
    simp only [initState, Nat.zero_add]
    rw [List.countP_eq_zero]
    intro a ha
    simp [h a ha]
  simp [finalizeSession, hs]

/-- C4 witness: a one-attempt session whose only fetch returns HTTP 404
ends in `error` with the file removed. -/
theorem zero_success_session_error_witness :
    (finalizeSession (runTiles [((10, 0, 0), FetchResult.response 404 [])]
        initState) "/tmp/output.mbtiles").status = SessionStatus.error
      ∧ (finalizeSession (runTiles [((10, 0, 0), FetchResult.response 404 [])]
          initState) "/tmp/output.mbtiles").fileExists = false
      ∧ (finalizeSession (runTiles [((10, 0, 0), FetchResult.response 404 [])]
          initState) "/tmp/output.mbtiles").result = none :=
  zero_success_session_error _ (by decide)

/-- C6 (confirmed): the XYZ↔TMS row conversion `2^zoom - 1 - r` applied
twice is the identity on every row in range, and the archive writer stores
an accepted tile under the TMS row `2^zoom - 1 - y`. -/
theorem tms_roundtrip_and_storage :
    (∀ (zoom : Nat) (r : Int), 0 ≤ r → r < 2 ^ zoom →
        tmsRow zoom (tmsRow zoom r) = r)
      ∧ ∀ (zoom : Nat) (x y : Int) (r : FetchResult) (s : PipelineState),
          acceptedPayload r = true →
          (processTile zoom x y r s).rows
            = upsertTile s.rows zoom x (tmsRow zoom y) (payloadContent r) := by
  constructor
  · intro zoom r _ _
    unfold tmsRow
    ring
  · intro zoom x y r s h
    rw [processTile_rows, if_pos h]

/-- C6 witness: the round trip at zoom 1, row 1, and the storage row of a
concrete accepted PNG tile. -/
theorem tms_roundtrip_and_storage_witness :
    tmsRow 1 (tmsRow 1 1) = 1
      ∧ (processTile 1 0 0 (FetchResult.response 200 pngSig) initState).rows
          = upsertTile initState.rows 1 0 (tmsRow 1 0) pngSig :=
  ⟨tms_roundtrip_and_storage.1 1 1 (by decide) (by decide),
   tms_roundtrip_and_storage.2 1 0 0 (FetchResult.response 200 pngSig)
     initState (by decide)⟩

/-- C8 (confirmed): a fetched payload is written into the archive exactly
when the response has HTTP status 200, a non-empty body, and the body
begins with the PNG signature or the JPEG signature; any other attempt
writes nothing and is counted as a failed tile. -/
theorem tile_written_iff_accepted (zoom : Nat) (x y : Int) (r : FetchResult)
    (s : PipelineState) :
    ((processTile zoom x y r s).successful_tiles = s.successful_tiles + 1
        ↔ acceptedPayload r = true)
      ∧ (acceptedPayload r = true →
          (processTile zoom x y r s).rows
            = upsertTile s.rows zoom x (tmsRow zoom y) (payloadContent r))
      ∧ (acceptedPayload r = false →
          (processTile zoom x y r s).rows = s.rows
            ∧ (processTile zoom x y r s).failed_tiles = s.failed_tiles + 1) := by
  refine ⟨?_, ?_, ?_⟩
  · rw [processTile_successful]
    by_cases h : acceptedPayload r = true
    · simp [h]
    · simp [h]
  · intro h
    rw [processTile_rows, if_pos h]
  · intro h
    constructor
    · rw [processTile_rows, h]
      simp
    · rw [processTile_failed, h]
      simp

/-- C8 witness: a status-404 empty response is rejected (nothing written,
failure counted) and a status-200 PNG response is written. -/
theorem tile_written_iff_accepted_witness :
    ((processTile 10 0 0 (FetchResult.response 404 []) initState).rows
        = initState.rows
      ∧ (processTile 10 0 0 (FetchResult.response 404 []) initState).failed_tiles
          = initState.failed_tiles + 1)
      ∧ (processTile 10 0 0 (FetchResult.response 200 pngSig) initState).rows
          = upsertTile initState.rows 10 0 (tmsRow 10 0) pngSig :=
  ⟨(tile_written_iff_accepted 10 0 0 (FetchResult.response 404 []) initState).2.2
      (by decide),
   (tile_written_iff_accepted 10 0 0 (FetchResult.response 200 pngSig)
      initState).2.1 (by decide)⟩

/-- C9 (confirmed): after the pipeline has processed any prefix of the
session's tile sequence, the `downloaded_tiles` progress counter equals
the number of attempts in that prefix — successes, rejections and
transport failures alike — and is therefore non-decreasing as the
processed prefix grows. -/
theorem downloaded_counts_attempts (l : List TileAttempt) (n m : Nat) :
    (runTiles (l.take n) initState).downloaded_tiles = (l.take n).length
      ∧ (n ≤ m →
          (runTiles (l.take n) initState).downloaded_tiles
            ≤ (runTiles (l.take m) initState).downloaded_tiles) := by
  constructor
  · simpa [initState] using runTiles_downloaded (l.take n) initState rfl
  · intro h
    rw [runTiles_downloaded _ _ rfl, runTiles_downloaded _ _ rfl]
    simp only [initState, Nat.zero_add, List.length_take]
    exact min_le_min h le_rfl

/-- C9 witness: a two-attempt sequence (one transport failure, one
success): the counter is 1 after the first attempt and does not decrease
when the second is processed. -/
theorem downloaded_counts_attempts_witness :
    (runTiles (([((10, 0, 0), FetchResult.exn "e"),
        ((10, 0, 1), FetchResult.response 200 pngSig)] : List TileAttempt).take 1)
        initState).downloaded_tiles
      = (([((10, 0, 0), FetchResult.exn "e"),
          ((10, 0, 1), FetchResult.response 200 pngSig)] : List TileAttempt).take 1).length
      ∧ (runTiles (([((10, 0, 0), FetchResult.exn "e"),
          ((10, 0, 1), FetchResult.response 200 pngSig)] : List TileAttempt).take 1)
          initState).downloaded_tiles
        ≤ (runTiles (([((10, 0, 0), FetchResult.exn "e"),
            ((10, 0, 1), FetchResult.response 200 pngSig)] : List TileAttempt).take 2)
            initState).downloaded_tiles :=
  ⟨(downloaded_counts_attempts _ 1 2).1,
   (downloaded_counts_attempts _ 1 2).2 (by decide)⟩

/-- C10 (confirmed): a start-download request that omits `max_zoom` gets
the default 22, which fails the `max_zoom <= 21` validation bound, so the
request is rejected with a validation error and the background download
thread (which creates the session) is never started. -/
theorem default_max_zoom_rejected (req : DownloadRequest)
    (h : req.max_zoom = none) :
    (∃ e, download_mbtiles req = StartResult.badRequest e)
      ∧ download_mbtiles req ≠ StartResult.started := by
  have hbody : ∀ e, download_mbtiles req = StartResult.badRequest e →
      (∃ e, download_mbtiles req = StartResult.badRequest e)
        ∧ download_mbtiles req ≠ StartResult.started := by
    intro e he
    exact ⟨⟨e, he⟩, by simp [he]⟩
  unfold download_mbtiles validateRequest
  rw [h]
  simp only [Option.getD_none]
  by_cases hc : ¬(-90 ≤ req.lat ∧ req.lat ≤ 90) ∨ ¬(-180 ≤ req.lon ∧ req.lon ≤ 180)
  · rw [if_pos hc]
    exact ⟨⟨_, rfl⟩, by simp⟩
  · rw [if_neg hc, if_pos (by norm_num)]
    exact ⟨⟨_, rfl⟩, by simp⟩

/-- C10 witness: an otherwise-valid request with `max_zoom` omitted is
rejected and no session starts. -/
theorem default_max_zoom_rejected_witness :
    (∃ e, download_mbtiles ⟨0, 0, none, none, none⟩ = StartResult.badRequest e)
      ∧ download_mbtiles ⟨0, 0, none, none, none⟩ ≠ StartResult.started :=
  default_max_zoom_rejected ⟨0, 0, none, none, none⟩ rfl

/-- C1 (counterexample): a request with latitude exactly 90 and otherwise
valid fields passes input validation and the download session is started —
the boundary latitude is not rejected (the checks are inclusive:
`-90 <= lat <= 90`). -/
theorem boundary_lat_accepted_cex :
    download_mbtiles ⟨90, 0, none, none, some 16⟩ = StartResult.started := by
  norm_num [download_mbtiles, validateRequest]

/-- C1 (amended): given in-range zoom levels and buffer, input validation
rejects a start-download request exactly when the latitude is strictly
outside [-90, 90] or the longitude strictly outside [-180, 180] — such
requests get a synchronous "Invalid coordinates" error before any session
is created — while the boundary values latitude ±90 and longitude ±180
pass validation and the download session is started. -/
theorem coordinate_validation_strict_bounds (req : DownloadRequest)
    (hm1 : 1 ≤ req.min_zoom.getD 10) (hm2 : req.min_zoom.getD 10 ≤ 21)
    (hM1 : 1 ≤ req.max_zoom.getD 22) (hM2 : req.max_zoom.getD 22 ≤ 21)
    (hmM : req.min_zoom.getD 10 ≤ req.max_zoom.getD 22)
    (hb1 : 1/1000 ≤ req.buffer.getD (5/1000))
    (hb2 : req.buffer.getD (5/1000) ≤ 1/10) :
    download_mbtiles req
      = if req.lat < -90 ∨ 90 < req.lat ∨ req.lon < -180 ∨ 180 < req.lon
        then StartResult.badRequest "Invalid coordinates"
        else StartResult.started := by
  unfold download_mbtiles validateRequest
  by_cases hc : req.lat < -90 ∨ 90 < req.lat ∨ req.lon < -180 ∨ 180 < req.lon
  · rw [if_pos hc]
    have hc2 : ¬(-90 ≤ req.lat ∧ req.lat ≤ 90) ∨ ¬(-180 ≤ req.lon ∧ req.lon ≤ 180) := by
      rcases hc with h | h | h | h
      · exact Or.inl (fun hx => absurd hx.1 (not_le.mpr h))
      · exact Or.inl (fun hx => absurd hx.2 (not_le.mpr h))
      · exact Or.inr (fun hx => absurd hx.1 (not_le.mpr h))
      · exact Or.inr (fun hx => absurd hx.2 (not_le.mpr h))
    rw [if_pos hc2]
  · rw [if_neg hc]
    push_neg at hc
    have hc2 : ¬(¬(-90 ≤ req.lat ∧ req.lat ≤ 90) ∨ ¬(-180 ≤ req.lon ∧ req.lon ≤ 180)) := by
      push_neg
      exact ⟨⟨hc.1, hc.2.1⟩, hc.2.2.1, hc.2.2.2⟩
    rw [if_neg hc2]
    rw [if_neg (by push_neg; exact ⟨⟨hm1, hm2⟩, ⟨hM1, hM2⟩, hmM⟩)]
    rw [if_neg (by push_neg; exact ⟨hb1, hb2⟩)]

/-- C3 (counterexample): with totalTiles 1, downloadedTiles 1, startTime 1
and the snapshot taken at clock time 1, the elapsed time is 0 while the
rate branch is entered (`start_time > 0 and downloaded > 0`), so
`downloaded / elapsed_time` raises ZeroDivisionError — the derived
metrics are not total and `tilesPerSecond` is not 0 at elapsed 0. -/
theorem get_progress_zero_elapsed_cex : get_progress 1 1 1 1 = none := by
  norm_num [get_progress]

/-- C3 (amended): the snapshot metrics follow the stated formulas with
their results rounded; `tilesPerSecond` is 0 when `downloaded` is 0 or
`startTime` is 0 (and so are `estimatedRemaining` and `elapsed`), but when
`downloaded > 0` and `startTime > 0` the division `downloaded / elapsed`
is unguarded and faults exactly when `elapsed` is 0; otherwise
`tilesPerSecond = downloaded / elapsed`,
`estimatedRemaining = (total - downloaded) / tilesPerSecond` when the rate
is positive and 0 otherwise, and `progressPercent` is 0 when `total`
is 0. -/
theorem get_progress_metrics_spec (total downloaded : Nat)
    (start_time now : ℚ) :
    (downloaded = 0 ∨ ¬ 0 < start_time →
        get_progress total downloaded start_time now
          = some ⟨if 0 < total
                  then pyRound1 ((downloaded : ℚ) / (total : ℚ) * 100) else 0,
                  0, 0, 0⟩)
      ∧ (0 < downloaded → 0 < start_time → now = start_time →
          get_progress total downloaded start_time now = none)
      ∧ (0 < downloaded → 0 < start_time → now ≠ start_time →
          get_progress total downloaded start_time now
            = some ⟨if 0 < total
                    then pyRound1 ((downloaded : ℚ) / (total : ℚ) * 100) else 0,
                    if 0 < (downloaded : ℚ) / (now - start_time)
                    then pyRound (((total : ℚ) - (downloaded : ℚ))
                        / ((downloaded : ℚ) / (now - start_time)))
                    else 0,
                    pyRound (now - start_time),
                    pyRound1 ((downloaded : ℚ) / (now - start_time))⟩)
      ∧ (total = 0 →
          ∀ m, get_progress total downloaded start_time now = some m →
            m.progress_percent = 0) := by
  refine ⟨?_, ?_, ?_, ?_⟩
  · intro h
    have hcond : ¬(0 < start_time ∧ 0 < downloaded) := by
      rcases h with h | h
      · exact fun hx => by simp [h] at hx
      · exact fun hx => h hx.1
    simp [get_progress, hcond]
  · intro h1 h2 h3
    subst h3
    simp [get_progress, h1, h2, sub_self]
  · intro h1 h2 h3
    have he : now - start_time ≠ 0 := sub_ne_zero.mpr h3
    simp [get_progress, h1, h2, he]
  · intro h m hm
    subst h
    simp only [get_progress] at hm
    norm_num at hm
    split at hm
    · split at hm
      · cases hm
      · simp only [Option.some.injEq] at hm
        subst hm
        rfl
    · simp only [Option.some.injEq] at hm
      subst hm
      rfl

/-- C3 witness: a session with 10 total tiles, 2 attempts done, started at
time 1 and observed at time 3 reports 20% progress, rate 1 tile/s,
8 seconds remaining, 2 seconds elapsed. -/
theorem get_progress_metrics_spec_witness :
    get_progress 10 2 1 3 = some ⟨20, 8, 2, 1⟩ := by
  have h := (get_progress_metrics_spec 10 2 1 3).2.2.1 (by norm_num)
    (by norm_num) (by norm_num)
  rw [h]
  norm_num [pyRound1, pyRound]

/-- C1 amended-claim witness: latitude 90 and longitude 180 with default
buffer and valid zooms pass validation and start the session. -/
theorem coordinate_validation_strict_bounds_witness :
    download_mbtiles ⟨90, 180, none, some 10, some 16⟩
      = if (90 : ℚ) < -90 ∨ (90 : ℚ) < 90 ∨ (180 : ℚ) < -180 ∨ (180 : ℚ) < 180
        then StartResult.badRequest "Invalid coordinates"
        else StartResult.started :=
  coordinate_validation_strict_bounds ⟨90, 180, none, some 10, some 16⟩
    (by norm_num) (by norm_num) (by norm_num) (by norm_num) (by norm_num)
    (by norm_num) (by norm_num)

/-- C5 (counterexample): at latitude 0, longitude -270, zoom 0 the column
expression `(lon+180)/360 * 2^zoom` equals -1/4; Python `int()` truncates
it toward zero giving column 0, while the spec's floor gives -1, so the
mapper does not return the floor of the expression. -/
theorem deg2num_floor_cex : deg2num 0 (-270) 0 ≠ toTile_spec 0 (-270) 0 := by
  intro h
  have h1 := congrArg Prod.fst h
  simp only [deg2num, toTile_spec, truncInt] at h1
  norm_num at h1
  have hceil : ⌈(-(1/4) : ℝ)⌉ = (0 : ℤ) := by
    rw [Int.ceil_eq_iff]
    norm_num
  rw [hceil] at h1
  exact absurd h1 (by norm_num)

/-- C5 (amended): the mapper computes exactly the spec's column and row
expressions but truncates them toward zero (Python `int()`) instead of
flooring; whenever both expressions are nonnegative — in particular for
longitudes in [-180, 180] and latitudes inside the Web-Mercator band —
truncation coincides with floor and the mapper returns the spec's floor
values, with no bounds clamping. -/
theorem deg2num_eq_floor_of_nonneg (lat lon : ℝ) (zoom : Nat)
    (hcol : 0 ≤ (lon + 180) / 360 * (2 ^ zoom : ℝ))
    (hrow : 0 ≤ (1 - Real.arsinh (Real.tan (lat * (Real.pi / 180))) / Real.pi) / 2
        * (2 ^ zoom : ℝ)) :
    deg2num lat lon zoom = toTile_spec lat lon zoom := by
  simp only [deg2num, toTile_spec, truncInt]
  rw [if_neg (not_lt.mpr hcol), if_neg (not_lt.mpr hrow)]

/-- C5 amended-claim witness: at the origin and zoom 0 both expressions
are 1/2 ≥ 0 and the mapper agrees with the spec's floors. -/
theorem deg2num_eq_floor_of_nonneg_witness :
    deg2num 0 0 0 = toTile_spec 0 0 0 :=
  deg2num_eq_floor_of_nonneg 0 0 0 (by norm_num)
    (by norm_num [Real.tan_zero, Real.arsinh_zero])

/-- Folding the per-zoom accumulation over any zoom list yields the
running total and the per-zoom table. -/
theorem total_tiles_fold (f : Nat → Int) (l : List Nat) (t0 : Int)
    (acc0 : List (Nat × Int)) :
    l.foldl (fun acc z => (acc.1 + f z, acc.2 ++ [(z, f z)])) (t0, acc0)
      = (t0 + (l.map f).sum, acc0 ++ l.map (fun z => (z, f z))) := by
  induction l generalizing t0 acc0 with
  | nil => simp
  | cons a t ih => simp [ih, add_assoc]

/-- A sum over `Finset.Icc a b` is the sum over the list `range' a (b+1-a)`. -/
theorem sum_Icc_eq_range'_map (f : Nat → Int) (a b : Nat) :
    ∑ z in Finset.Icc a b, f z = ((List.range' a (b + 1 - a)).map f).sum := by
  rw [Nat.Icc_eq_range']
  rfl

/-- C7 (confirmed): the total-tile calculator returns, per zoom, exactly
`(colMax - colMin + 1) * (rowMax - rowMin + 1)` with the column extremes
from the box's min/max longitudes and `rowMin` from the maximum latitude
and `rowMax` from the minimum latitude, and its total is the sum of these
per-zoom products over the zoom range. -/
theorem calculate_total_tiles_spec (min_lat max_lat min_lon max_lon : ℝ)
    (min_zoom max_zoom : Nat) :
    (calculate_total_tiles min_lat max_lat min_lon max_lon min_zoom max_zoom).1
        = ∑ z in Finset.Icc min_zoom max_zoom,
            specZoomCount min_lat max_lat min_lon max_lon z
      ∧ (calculate_total_tiles min_lat max_lat min_lon max_lon min_zoom max_zoom).2
        = (List.range' min_zoom (max_zoom + 1 - min_zoom)).map
            (fun z => (z, specZoomCount min_lat max_lat min_lon max_lon z)) := by
  have hc : calculate_total_tiles min_lat max_lat min_lon max_lon min_zoom max_zoom
      = (0 + ((List.range' min_zoom (max_zoom + 1 - min_zoom)).map
            (fun z => specZoomCount min_lat max_lat min_lon max_lon z)).sum,
         [] ++ (List.range' min_zoom (max_zoom + 1 - min_zoom)).map
            (fun z => (z, specZoomCount min_lat max_lat min_lon max_lon z))) :=
    total_tiles_fold (fun z => specZoomCount min_lat max_lat min_lon max_lon z)
      (List.range' min_zoom (max_zoom + 1 - min_zoom)) 0 []
  rw [hc, sum_Icc_eq_range'_map]
  simp

end MBTiles
